import Mathlib

/-!
Verification of the health/water-quality report analyzer (`my_analysis.py`).

The core logic is embedded shallowly:
* a `Report` carries the optional fields read from the JSON record; numeric
  fields are `Option ℚ` (a missing, blank, null or malformed value — which
  `_get_float` silently coerces to the default — is `none`);
* `score_and_infer`, `aggregate_location_patterns` and
  `overall_risk_from_reports` are direct transcriptions of the Python
  functions, with Python floats modelled by rationals;
* `Counter.most_common(n)` is modelled by a stable descending sort on the
  stored counts followed by `take n`, which is the documented behaviour
  (ties are kept in first-encountered order).
-/

namespace MyAnalysis

/-- Substring membership on `List Char`: Python's `needle in haystack`. -/
def infixOfB (needle : List Char) : List Char → Bool
  | [] => needle.isEmpty
  | c :: rest => needle.isPrefixOf (c :: rest) || infixOfB needle rest

/-- Python's `pat in s` substring test. -/
def containsSub (s pat : String) : Bool :=
  infixOfB pat.toList s.toList

/-- One input report: the fields `score_and_infer` reads.  `none` on a
numeric field models a missing/blank/null/malformed JSON value, which
`_get_float` coerces to the stated default. -/
structure Report where
  location : Option String := none
  symptoms : Option String := none
  pH : Option ℚ := none
  turbidity : Option ℚ := none
  bacteria_count : Option ℚ := none
  coliforms : Option ℚ := none
  hpc : Option ℚ := none
  arsenic : Option ℚ := none
  fluoride : Option ℚ := none
  nitrate : Option ℚ := none
  lead : Option ℚ := none
deriving DecidableEq

/-- Output of `score_and_infer`. -/
structure ScoredReport where
  location : String
  score : ℕ
  risk_level : String
  issues_found : List String
  likely_diseases : List String
deriving DecidableEq

/-! The `SAFE` threshold constants. -/

def pH_min : ℚ := 6.5
def pH_max : ℚ := 8.5
def turbidity_ideal : ℚ := 1.0
def turbidity_max : ℚ := 5.0
def hpc_max : ℚ := 500.0
def arsenic_max : ℚ := 0.01
def fluoride_max : ℚ := 1.5
def nitrate_max : ℚ := 45.0
def lead_max : ℚ := 0.01

def SYMPTOM_KEYS : List String :=
  ["fever", "diarrhea", "vomit", "vomiting", "jaundice",
   "abdominal pain", "stomach pain", "nausea"]

/-- ASCII lower-casing, `str.lower()` (character-by-character map). -/
def strLower (s : String) : String := String.mk (s.data.map Char.toLower)

/-- `(report.get("symptoms") or "").lower()`. -/
def stextOf (r : Report) : String := strLower (r.symptoms.getD "")

/-- `report.get("location") or "Unknown"` (empty string is falsy). -/
def locOf (r : Report) : String :=
  match r.location with
  | none => "Unknown"
  | some s => if s = "" then "Unknown" else s

def pHVal (r : Report) : ℚ := r.pH.getD 7
def turbVal (r : Report) : ℚ := r.turbidity.getD 0
def ecoliVal (r : Report) : ℚ := r.bacteria_count.getD 0
def coliformsVal (r : Report) : ℚ := r.coliforms.getD 0
def hpcVal (r : Report) : ℚ := r.hpc.getD 0
def arsenicVal (r : Report) : ℚ := r.arsenic.getD 0
def fluorideVal (r : Report) : ℚ := r.fluoride.getD 0
def nitrateVal (r : Report) : ℚ := r.nitrate.getD 0
def leadVal (r : Report) : ℚ := r.lead.getD 0

/-- Symptom-derived risk: the five `if ... : score += k` lines. -/
def symptomScore (st : String) : ℕ :=
  (if containsSub st "fever" then 2 else 0) +
  (if containsSub st "diarrhea" then 3 else 0) +
  (if containsSub st "vomit" || containsSub st "vomiting" || containsSub st "nausea"
     then 2 else 0) +
  (if containsSub st "jaundice" then 2 else 0) +
  (if containsSub st "abdominal pain" || containsSub st "stomach pain"
     then 1 else 0)

/-- Each water-quality rule yields (score delta, issues appended, diseases
appended). -/
def pHRule (p : ℚ) : ℕ × List String × List String :=
  if p < pH_min ∨ pH_max < p then
    (2, ["Unsafe pH"], ["Metal leaching / gastritis / skin irritation"])
  else (0, [], [])

def turbRule (t : ℚ) : ℕ × List String × List String :=
  if 30 < t then
    (4, ["Very high turbidity"], ["Pathogens likely; chlorination failure"])
  else if turbidity_max < t then
    (2, ["High turbidity"], ["Pathogens may survive; diarrhea risk"])
  else if turbidity_ideal < t then
    (0, ["Turbidity above ideal"], [])
  else (0, [], [])

def ecoliRule (e : ℚ) : ℕ × List String × List String :=
  if 0 < e then
    (5, ["E. coli present"], ["Diarrhea", "Cholera", "Typhoid"])
  else (0, [], [])

def coliformRule (c : ℚ) : ℕ × List String × List String :=
  if 0 < c then
    (3, ["Fecal contamination (coliforms)"], ["Gastroenteritis", "Hepatitis A"])
  else (0, [], [])

def hpcRule (h : ℚ) : ℕ × List String × List String :=
  if hpc_max < h then
    (2, ["High HPC"], ["Opportunistic infections"])
  else (0, [], [])

def arsenicRule (a : ℚ) : ℕ × List String × List String :=
  if arsenic_max < a then
    (4, ["Arsenic above safe limit"], ["Arsenicosis / cancer risk"])
  else (0, [], [])

def fluorideRule (f : ℚ) : ℕ × List String × List String :=
  if fluoride_max < f then
    (2, ["High fluoride"], ["Dental/Skeletal fluorosis"])
  else (0, [], [])

def nitrateRule (n : ℚ) : ℕ × List String × List String :=
  if nitrate_max < n then
    (3, ["High nitrate"], ["Methemoglobinemia (Blue Baby)"])
  else (0, [], [])

def leadRule (l : ℚ) : ℕ × List String × List String :=
  if lead_max < l then
    (4, ["Lead above safe limit"], ["Neurotoxicity / developmental issues"])
  else (0, [], [])

/-- The total additive score (`score` just before the risk bucketing). -/
def rawScore (r : Report) : ℕ :=
  symptomScore (stextOf r) +
  (pHRule (pHVal r)).1 + (turbRule (turbVal r)).1 +
  (ecoliRule (ecoliVal r)).1 + (coliformRule (coliformsVal r)).1 +
  (hpcRule (hpcVal r)).1 + (arsenicRule (arsenicVal r)).1 +
  (fluorideRule (fluorideVal r)).1 + (nitrateRule (nitrateVal r)).1 +
  (leadRule (leadVal r)).1

/-- `issues` at the end of the threshold section, in evaluation order. -/
def rawIssues (r : Report) : List String :=
  (pHRule (pHVal r)).2.1 ++ (turbRule (turbVal r)).2.1 ++
  (ecoliRule (ecoliVal r)).2.1 ++ (coliformRule (coliformsVal r)).2.1 ++
  (hpcRule (hpcVal r)).2.1 ++ (arsenicRule (arsenicVal r)).2.1 ++
  (fluorideRule (fluorideVal r)).2.1 ++ (nitrateRule (nitrateVal r)).2.1 ++
  (leadRule (leadVal r)).2.1

/-- `diseases` before the coupling rules, in evaluation order. -/
def baseDiseases (r : Report) : List String :=
  (pHRule (pHVal r)).2.2 ++ (turbRule (turbVal r)).2.2 ++
  (ecoliRule (ecoliVal r)).2.2 ++ (coliformRule (coliformsVal r)).2.2 ++
  (hpcRule (hpcVal r)).2.2 ++ (arsenicRule (arsenicVal r)).2.2 ++
  (fluorideRule (fluorideVal r)).2.2 ++ (nitrateRule (nitrateVal r)).2.2 ++
  (leadRule (leadVal r)).2.2

/-- `if d not in diseases: diseases.append(d)`. -/
def ensure (d : String) (l : List String) : List String :=
  if d ∈ l then l else l ++ [d]

/-- The two symptom/water coupling rules (they add no score). -/
def withCoupling (r : Report) (ds : List String) : List String :=
  let ds1 :=
    if containsSub (stextOf r) "diarrhea" = true ∧
       (0 < ecoliVal r ∨ 0 < coliformsVal r ∨ turbidity_max < turbVal r) then
      ensure "Gastroenteritis" (ensure "Typhoid" (ensure "Cholera" ds))
    else ds
  if containsSub (stextOf r) "jaundice" = true ∧
     (0 < coliformsVal r ∨ 0 < ecoliVal r) then
    ensure "Hepatitis A" ds1
  else ds1

/-- Risk bucketing: `>= 6` High, `>= 3` Medium, else Low. -/
def riskOf (s : ℕ) : String :=
  if 6 ≤ s then "High" else if 3 ≤ s then "Medium" else "Low"

/-- One step of the de-duplication loop (`seen` is exactly the set of
elements of the accumulator). -/
def dedupStep (acc : List String) (d : String) : List String :=
  if d ∈ acc then acc else acc ++ [d]

/-- The de-duplication loop over `diseases`. -/
def dedupKeepFirst (l : List String) : List String :=
  l.foldl dedupStep []

/-- `score_and_infer`, assembled from the pieces above in source order. -/
def score_and_infer (r : Report) : ScoredReport :=
  { location := locOf r
    score := rawScore r
    risk_level := riskOf (rawScore r)
    issues_found := rawIssues r
    likely_diseases := dedupKeepFirst (withCoupling r (baseDiseases r)) }

/-! ### The location aggregator -/

/-- A `Counter` is modelled by an association list in key-insertion order.
`cInc c k` is `counter[k] += 1`. -/
def cInc (c : List (String × ℕ)) (k : String) : List (String × ℕ) :=
  if c.any (fun p => p.1 = k) then
    c.map (fun p => if p.1 = k then (p.1, p.2 + 1) else p)
  else c ++ [(k, 1)]

/-- Largest stored count. -/
def maxCount (c : List (String × ℕ)) : ℕ :=
  c.foldr (fun p m => max p.2 m) 0

/-- Stable sort by descending count: for each possible count value from the
largest down, keep the entries with that count in their original
(first-encountered) order.  This is the documented behaviour of
`Counter.most_common`. -/
def sortDescStable (c : List (String × ℕ)) : List (String × ℕ) :=
  ((List.range (maxCount c + 1)).reverse).flatMap
    (fun v => c.filter (fun p => p.2 = v))

/-- `[k for k, _ in counter.most_common(n)]`. -/
def mostCommonKeys (n : ℕ) (c : List (String × ℕ)) : List String :=
  ((sortDescStable c).take n).map Prod.fst

/-- `loc_symptoms[loc]`: one increment per report (at `loc`) per keyword
present in its symptom text. -/
def symptomCounterOf (reports : List Report) (loc : String) : List (String × ℕ) :=
  reports.foldl
    (fun c r =>
      if locOf r = loc then
        SYMPTOM_KEYS.foldl
          (fun c' k => if containsSub (stextOf r) k then cInc c' k else c') c
      else c) []

/-- `loc_risk[loc]`. -/
def riskCounterOf (reports : List Report) (loc : String) : List (String × ℕ) :=
  reports.foldl
    (fun c r => if locOf r = loc then cInc c (score_and_infer r).risk_level else c) []

/-- `loc_issues[loc]`. -/
def issueCounterOf (reports : List Report) (loc : String) : List (String × ℕ) :=
  reports.foldl
    (fun c r =>
      if locOf r = loc then (score_and_infer r).issues_found.foldl cInc c else c) []

/-- `loc_diseases[loc]`. -/
def diseaseCounterOf (reports : List Report) (loc : String) : List (String × ℕ) :=
  reports.foldl
    (fun c r =>
      if locOf r = loc then (score_and_infer r).likely_diseases.foldl cInc c else c) []

/-- One entry of `location_summary`. -/
structure LocationSummary where
  symptom_trends : List (String × ℕ)
  risk_counts : List (String × ℕ)
  top_issues : List String
  likely_diseases_top : List String
deriving DecidableEq

/-- `set([pr["location"] for pr in per_report] or ["Unknown"])` — the
locations that get a summary (an empty list is falsy in Python). -/
def locationsOf (reports : List Report) : List String :=
  if reports.isEmpty then ["Unknown"] else reports.map locOf

/-- `aggregate_location_patterns`: per-report entries (the original record
merged with the scorer output, scorer fields winning) and the per-location
summary map. -/
def aggregate_location_patterns (reports : List Report) :
    List (Report × ScoredReport) × (String → Option LocationSummary) :=
  (reports.map (fun r => (r, score_and_infer r)),
   fun loc =>
     if loc ∈ locationsOf reports then
       some
         { symptom_trends := symptomCounterOf reports loc
           risk_counts := riskCounterOf reports loc
           top_issues := mostCommonKeys 5 (issueCounterOf reports loc)
           likely_diseases_top := mostCommonKeys 5 (diseaseCounterOf reports loc) }
     else none)

/-- `overall_risk_from_reports`, over the per-report records (only their
`risk_level` is read). -/
def overall_risk_from_reports (per_report : List ScoredReport) : String :=
  if per_report.isEmpty then "No Data"
  else
    let total : ℚ := per_report.length
    let hi : ℚ := (per_report.filter (fun r => r.risk_level = "High")).length
    let med : ℚ := (per_report.filter (fun r => r.risk_level = "Medium")).length
    if hi / total ≥ 33/100 then "High"
    else if med / total ≥ 33/100 then "Medium"
    else "Low"

/-! ### C2: risk tier is a pure function of the score -/

/-- **C2**: for every report the returned `risk_level` is a pure function of
the total score — score ≥ 6 gives "High", 3 ≤ score < 6 gives "Medium",
score < 3 gives "Low"; in particular 2 ↦ Low, 3 ↦ Medium, 5 ↦ Medium,
6 ↦ High. -/
theorem C2_risk_level_pure_function_of_score :
    (∀ r : Report, (score_and_infer r).risk_level = riskOf (score_and_infer r).score) ∧
    (∀ s : ℕ, 6 ≤ s → riskOf s = "High") ∧
    (∀ s : ℕ, 3 ≤ s → s < 6 → riskOf s = "Medium") ∧
    (∀ s : ℕ, s < 3 → riskOf s = "Low") ∧
    riskOf 2 = "Low" ∧ riskOf 3 = "Medium" ∧ riskOf 5 = "Medium" ∧ riskOf 6 = "High" := by
  refine ⟨fun r => rfl, fun s h => ?_, fun s h1 h2 => ?_, fun s h => ?_, rfl, rfl, rfl, rfl⟩
  · unfold riskOf
    rw [if_pos h]
  · unfold riskOf
    rw [if_neg (by omega), if_pos h1]
  · unfold riskOf
    rw [if_neg (by omega), if_neg (by omega)]

/-- Witness for C2 at concrete scores. -/
theorem C2_witness :
    riskOf 10 = "High" ∧ riskOf 4 = "Medium" ∧ riskOf 1 = "Low" :=
  ⟨C2_risk_level_pure_function_of_score.2.1 10 (by decide),
   C2_risk_level_pure_function_of_score.2.2.1 4 (by decide) (by decide),
   C2_risk_level_pure_function_of_score.2.2.2.1 1 (by decide)⟩

/-! ### C3/C4: the global risk verdict -/

/-- **C3**: `overall_risk_from_reports` returns "No Data" on the empty list;
otherwise, over the same total count, High fraction ≥ 0.33 gives "High",
else Medium fraction ≥ 0.33 gives "Medium", else "Low" (High is checked
first). -/
theorem C3_overall_risk_verdict :
    overall_risk_from_reports [] = "No Data" ∧
    ∀ l : List ScoredReport, l ≠ [] →
      (((l.filter (fun r => r.risk_level = "High")).length : ℚ) / l.length ≥ 33/100 →
        overall_risk_from_reports l = "High") ∧
      (((l.filter (fun r => r.risk_level = "High")).length : ℚ) / l.length < 33/100 →
        ((l.filter (fun r => r.risk_level = "Medium")).length : ℚ) / l.length ≥ 33/100 →
        overall_risk_from_reports l = "Medium") ∧
      (((l.filter (fun r => r.risk_level = "High")).length : ℚ) / l.length < 33/100 →
        ((l.filter (fun r => r.risk_level = "Medium")).length : ℚ) / l.length < 33/100 →
        overall_risk_from_reports l = "Low") := by
  constructor
  · rfl
  · intro l hl
    obtain ⟨a, t, rfl⟩ := List.exists_cons_of_ne_nil hl
    refine ⟨fun h1 => ?_, fun h1 h2 => ?_, fun h1 h2 => ?_⟩
    · unfold overall_risk_from_reports
      rw [if_neg (by simp), if_pos h1]
    · unfold overall_risk_from_reports
      rw [if_neg (by simp), if_neg (not_le.mpr h1), if_pos h2]
    · unfold overall_risk_from_reports
      rw [if_neg (by simp), if_neg (not_le.mpr h1), if_neg (not_le.mpr h2)]

/-- A concrete 3-report input with risk levels [High, Medium, Low]. -/
def threeMixed : List ScoredReport :=
  [⟨"A", 7, "High", [], []⟩, ⟨"A", 4, "Medium", [], []⟩, ⟨"A", 2, "Low", [], []⟩]

/-- Witness for C3: on `threeMixed` the High fraction is 1/3 ≥ 0.33 and the
verdict is "High". -/
theorem C3_witness : overall_risk_from_reports threeMixed = "High" :=
  (C3_overall_risk_verdict.2 threeMixed (by simp [threeMixed])).1
    (by
      rw [show threeMixed.filter (fun r => r.risk_level = "High") =
            [⟨"A", 7, "High", [], []⟩] from by decide]
      norm_num [threeMixed])

/-- **C4 counterexample**: on three entries with risk levels
[High, Medium, Low] the code returns "High" (1/3 ≥ 0.33), not "Low" as the
claim states. -/
theorem C4_counterexample : overall_risk_from_reports threeMixed ≠ "Low" := by
  have h : overall_risk_from_reports threeMixed = "High" := by
    unfold overall_risk_from_reports
    rw [if_neg (by decide),
      show threeMixed.filter (fun r => r.risk_level = "High") =
        [⟨"A", 7, "High", [], []⟩] from by decide,
      if_pos (by norm_num [threeMixed])]
  rw [h]
  decide

/-- **C4 (amended)**: for an input of exactly 3 per-report entries whose
risk levels are [High, Medium, Low], `overall_risk_from_reports` returns
"High" — the High fraction 1/3 clears the 0.33 threshold. -/
theorem C4_amended_three_mixed_is_high (a b c : ScoredReport)
    (ha : a.risk_level = "High") (hb : b.risk_level = "Medium")
    (hc : c.risk_level = "Low") :
    overall_risk_from_reports [a, b, c] = "High" := by
  have hMH : ("Medium" = "High") = False := eq_false (by decide)
  have hLH : ("Low" = "High") = False := eq_false (by decide)
  have hfil : [a, b, c].filter (fun r => r.risk_level = "High") = [a] := by
    simp [List.filter_cons, ha, hb, hc, hMH, hLH]
  unfold overall_risk_from_reports
  rw [if_neg (by simp), hfil, if_pos (by norm_num)]

/-- Witness for the amended C4. -/
theorem C4_witness : overall_risk_from_reports threeMixed = "High" := by
  have h := C4_amended_three_mixed_is_high ⟨"A", 7, "High", [], []⟩
    ⟨"A", 4, "Medium", [], []⟩ ⟨"A", 2, "Low", [], []⟩ rfl rfl rfl
  exact h

/-! ### C6: de-duplication of the disease list -/

/-- Specification of first-occurrence de-duplication: keep each string's
first occurrence and drop every later repeat. -/
def keepFirstSpec : List String → List String
  | [] => []
  | a :: l => a :: keepFirstSpec (l.filter (fun x => x ≠ a))
termination_by l => l.length
decreasing_by
  simp only [List.length_cons]
  exact Nat.lt_succ_of_le (List.length_filter_le _ _)

theorem mem_of_mem_keepFirstSpec : ∀ (l : List String) (x : String),
    x ∈ keepFirstSpec l → x ∈ l
  | [], x, h => by simp [keepFirstSpec] at h
  | a :: t, x, h => by
      rw [keepFirstSpec] at h
      rcases List.mem_cons.mp h with h1 | h2
      · exact h1 ▸ List.mem_cons_self a t
      · exact List.mem_cons_of_mem a
          (List.mem_filter.mp (mem_of_mem_keepFirstSpec _ x h2)).1
termination_by l => l.length
decreasing_by
  simp only [List.length_cons]
  exact Nat.lt_succ_of_le (List.length_filter_le _ _)

theorem nodup_keepFirstSpec : ∀ l : List String, (keepFirstSpec l).Nodup
  | [] => by simp [keepFirstSpec]
  | a :: t => by
      rw [keepFirstSpec]
      refine List.nodup_cons.mpr ⟨?_, nodup_keepFirstSpec _⟩
      intro hmem
      have hne := (List.mem_filter.mp (mem_of_mem_keepFirstSpec _ _ hmem)).2
      simp at hne
termination_by l => l.length
decreasing_by
  simp only [List.length_cons]
  exact Nat.lt_succ_of_le (List.length_filter_le _ _)

theorem mem_keepFirstSpec_of_mem : ∀ (l : List String) (x : String),
    x ∈ l → x ∈ keepFirstSpec l
  | a :: t, x, h => by
      rw [keepFirstSpec]
      by_cases hxa : x = a
      · exact hxa ▸ List.mem_cons_self a _
      · rcases List.mem_cons.mp h with h1 | h2
        · exact absurd h1 hxa
        · refine List.mem_cons_of_mem a (mem_keepFirstSpec_of_mem _ x ?_)
          exact List.mem_filter.mpr ⟨h2, by simp [hxa]⟩
termination_by l => l.length
decreasing_by
  simp only [List.length_cons]
  exact Nat.lt_succ_of_le (List.length_filter_le _ _)

/-- The `seen`-set loop computes exactly first-occurrence de-duplication. -/
theorem foldl_dedupStep : ∀ (l acc : List String),
    l.foldl dedupStep acc = acc ++ keepFirstSpec (l.filter (fun x => x ∉ acc)) := by
  intro l
  induction l with
  | nil => intro acc; simp [keepFirstSpec]
  | cons a t ih =>
    intro acc
    rw [List.foldl_cons, List.filter_cons]
    by_cases ha : a ∈ acc
    · have h1 : dedupStep acc a = acc := if_pos ha
      have h2 : (decide (a ∉ acc)) = false := by simp [ha]
      rw [h1, h2, if_neg (by simp), ih acc]
    · have h1 : dedupStep acc a = acc ++ [a] := if_neg ha
      have h2 : (decide (a ∉ acc)) = true := by simp [ha]
      rw [h1, h2, if_pos rfl, ih (acc ++ [a]), keepFirstSpec, List.filter_filter]
      have hpred : (fun x => decide (x ∉ acc ++ [a])) =
          (fun x => decide (x ≠ a) && decide (x ∉ acc)) := by
        funext x
        by_cases hx1 : x = a <;> by_cases hx2 : x ∈ acc <;> simp [hx1, hx2]
      rw [hpred, List.append_assoc]
      rfl

theorem dedupKeepFirst_eq (l : List String) : dedupKeepFirst l = keepFirstSpec l := by
  have h := foldl_dedupStep l []
  have hpred : (fun x => decide ((x : String) ∉ ([] : List String))) =
      (fun _ : String => true) := by
    funext x
    simp
  rw [dedupKeepFirst, h, hpred, List.filter_true, List.nil_append]

/-- **C6**: `likely_diseases` is the first-occurrence de-duplication of the
diseases emitted by the rules (later repeats dropped), and contains no
duplicate strings. -/
theorem C6_likely_diseases_dedup_first_occurrence (r : Report) :
    (score_and_infer r).likely_diseases =
      keepFirstSpec (withCoupling r (baseDiseases r)) ∧
    (score_and_infer r).likely_diseases.Nodup := by
  have h : (score_and_infer r).likely_diseases =
      keepFirstSpec (withCoupling r (baseDiseases r)) :=
    dedupKeepFirst_eq _
  exact ⟨h, h ▸ nodup_keepFirstSpec _⟩

/-! ### C10: the issue list never contains duplicates -/

theorem pHRule_issues_sub (p : ℚ) :
    List.Sublist (pHRule p).2.1 ["Unsafe pH"] := by
  unfold pHRule
  split <;> decide

theorem turbRule_issues_sub (t : ℚ) :
    List.Sublist (turbRule t).2.1
      ["Very high turbidity", "High turbidity", "Turbidity above ideal"] := by
  unfold turbRule
  split_ifs <;> decide

theorem ecoliRule_issues_sub (e : ℚ) :
    List.Sublist (ecoliRule e).2.1 ["E. coli present"] := by
  unfold ecoliRule
  split <;> decide

theorem coliformRule_issues_sub (c : ℚ) :
    List.Sublist (coliformRule c).2.1 ["Fecal contamination (coliforms)"] := by
  unfold coliformRule
  split <;> decide

theorem hpcRule_issues_sub (h : ℚ) :
    List.Sublist (hpcRule h).2.1 ["High HPC"] := by
  unfold hpcRule
  split <;> decide

theorem arsenicRule_issues_sub (a : ℚ) :
    List.Sublist (arsenicRule a).2.1 ["Arsenic above safe limit"] := by
  unfold arsenicRule
  split <;> decide

theorem fluorideRule_issues_sub (f : ℚ) :
    List.Sublist (fluorideRule f).2.1 ["High fluoride"] := by
  unfold fluorideRule
  split <;> decide

theorem nitrateRule_issues_sub (n : ℚ) :
    List.Sublist (nitrateRule n).2.1 ["High nitrate"] := by
  unfold nitrateRule
  split <;> decide

theorem leadRule_issues_sub (l : ℚ) :
    List.Sublist (leadRule l).2.1 ["Lead above safe limit"] := by
  unfold leadRule
  split <;> decide

/-- Every issue list is a sublist of the eleven distinct issue literals, in
rule order. -/
theorem rawIssues_sublist (r : Report) :
    List.Sublist (rawIssues r)
      (["Unsafe pH"] ++
       ["Very high turbidity", "High turbidity", "Turbidity above ideal"] ++
       ["E. coli present"] ++ ["Fecal contamination (coliforms)"] ++
       ["High HPC"] ++ ["Arsenic above safe limit"] ++ ["High fluoride"] ++
       ["High nitrate"] ++ ["Lead above safe limit"]) := by
  unfold rawIssues
  exact ((((((((pHRule_issues_sub _).append (turbRule_issues_sub _)).append
    (ecoliRule_issues_sub _)).append (coliformRule_issues_sub _)).append
    (hpcRule_issues_sub _)).append (arsenicRule_issues_sub _)).append
    (fluorideRule_issues_sub _)).append (nitrateRule_issues_sub _)).append
    (leadRule_issues_sub _)

/-- **C10**: `issues_found` never contains two equal strings — each
threshold check appends a distinct literal at most once. -/
theorem C10_issues_found_nodup (r : Report) :
    (score_and_infer r).issues_found.Nodup :=
  List.Nodup.sublist (rawIssues_sublist r) (by decide)

/-! ### C1: an all-safe report scores 0/Low with empty lists -/

theorem pHRule_safe {p : ℚ} (h1 : pH_min ≤ p) (h2 : p ≤ pH_max) :
    pHRule p = (0, [], []) := by
  unfold pHRule
  rw [if_neg (by push_neg; exact ⟨h1, h2⟩)]

theorem turbRule_safe {t : ℚ} (h : t ≤ turbidity_ideal) :
    turbRule t = (0, [], []) := by
  have h1 : t ≤ 1 := by
    unfold turbidity_ideal at h
    norm_num at h
    exact h
  unfold turbRule
  rw [if_neg (by rw [not_lt]; linarith),
    if_neg (by rw [not_lt]; unfold turbidity_max; norm_num; linarith),
    if_neg (by rw [not_lt]; unfold turbidity_ideal; norm_num; linarith)]

theorem ecoliRule_safe {e : ℚ} (h : e = 0) : ecoliRule e = (0, [], []) := by
  unfold ecoliRule
  rw [if_neg (by simp [h])]

theorem coliformRule_safe {c : ℚ} (h : c = 0) : coliformRule c = (0, [], []) := by
  unfold coliformRule
  rw [if_neg (by simp [h])]

theorem hpcRule_safe {h : ℚ} (hh : h ≤ hpc_max) : hpcRule h = (0, [], []) := by
  unfold hpcRule
  rw [if_neg (not_lt.mpr hh)]

theorem arsenicRule_safe {a : ℚ} (ha : a ≤ arsenic_max) :
    arsenicRule a = (0, [], []) := by
  unfold arsenicRule
  rw [if_neg (not_lt.mpr ha)]

theorem fluorideRule_safe {f : ℚ} (hf : f ≤ fluoride_max) :
    fluorideRule f = (0, [], []) := by
  unfold fluorideRule
  rw [if_neg (not_lt.mpr hf)]

theorem nitrateRule_safe {n : ℚ} (hn : n ≤ nitrate_max) :
    nitrateRule n = (0, [], []) := by
  unfold nitrateRule
  rw [if_neg (not_lt.mpr hn)]

theorem leadRule_safe {l : ℚ} (hl : l ≤ lead_max) : leadRule l = (0, [], []) := by
  unfold leadRule
  rw [if_neg (not_lt.mpr hl)]

/-- When neither coupling condition fires, the disease list is unchanged. -/
theorem withCoupling_id (r : Report) (ds : List String)
    (hd : containsSub (stextOf r) "diarrhea" = false)
    (hj : containsSub (stextOf r) "jaundice" = false) :
    withCoupling r ds = ds := by
  unfold withCoupling
  simp [hd, hj]

/-- **C1**: for every report with no symptom text and every measurement
missing or within its safe bound (a missing value defaults to an in-bound
one), `score_and_infer` returns score 0, risk "Low", and empty issue and
disease lists. -/
theorem C1_safe_report_scores_zero (r : Report)
    (hs : stextOf r = "")
    (hpH1 : pH_min ≤ pHVal r) (hpH2 : pHVal r ≤ pH_max)
    (ht : turbVal r ≤ turbidity_ideal)
    (he : ecoliVal r = 0) (hc : coliformsVal r = 0)
    (hh : hpcVal r ≤ hpc_max) (ha : arsenicVal r ≤ arsenic_max)
    (hf : fluorideVal r ≤ fluoride_max) (hn : nitrateVal r ≤ nitrate_max)
    (hl : leadVal r ≤ lead_max) :
    score_and_infer r =
      { location := locOf r, score := 0, risk_level := "Low",
        issues_found := [], likely_diseases := [] } := by
  have hR1 := pHRule_safe hpH1 hpH2
  have hR2 := turbRule_safe ht
  have hR3 := ecoliRule_safe he
  have hR4 := coliformRule_safe hc
  have hR5 := hpcRule_safe hh
  have hR6 := arsenicRule_safe ha
  have hR7 := fluorideRule_safe hf
  have hR8 := nitrateRule_safe hn
  have hR9 := leadRule_safe hl
  have hscore : rawScore r = 0 := by
    unfold rawScore
    rw [hs, hR1, hR2, hR3, hR4, hR5, hR6, hR7, hR8, hR9]
    rfl
  have hiss : rawIssues r = [] := by
    unfold rawIssues
    rw [hR1, hR2, hR3, hR4, hR5, hR6, hR7, hR8, hR9]
    rfl
  have hdis : baseDiseases r = [] := by
    unfold baseDiseases
    rw [hR1, hR2, hR3, hR4, hR5, hR6, hR7, hR8, hR9]
    rfl
  have hcoup : withCoupling r (baseDiseases r) = [] := by
    rw [hdis]
    exact withCoupling_id r [] (by rw [hs]; rfl) (by rw [hs]; rfl)
  unfold score_and_infer
  rw [hscore, hiss, hcoup]
  rfl

/-- Witness for C1: the all-default report. -/
theorem C1_witness :
    stextOf {} = "" ∧ ecoliVal {} = 0 ∧
    score_and_infer {} = ⟨"Unknown", 0, "Low", [], []⟩ :=
  ⟨rfl, rfl,
    C1_safe_report_scores_zero {} rfl
      (by norm_num [pHVal, pH_min]) (by norm_num [pHVal, pH_max])
      (by norm_num [turbVal, turbidity_ideal]) rfl rfl
      (by norm_num [hpcVal, hpc_max]) (by norm_num [arsenicVal, arsenic_max])
      (by norm_num [fluorideVal, fluoride_max]) (by norm_num [nitrateVal, nitrate_max])
      (by norm_num [leadVal, lead_max])⟩

/-! ### C5: the three turbidity branches are mutually exclusive -/

theorem count_zero_of_sublist {l L : List String} (s : String)
    (hsub : List.Sublist l L) (hs : s ∉ L) : l.count s = 0 :=
  List.count_eq_zero.mpr (fun hmem => hs (hsub.subset hmem))

/-- **C5**: with turbidity 40 only the ">30" branch fires: it contributes
exactly +4 and the single issue "Very high turbidity"; the ">5" and ">1"
branches contribute nothing. -/
theorem C5_turbidity_40_only_very_high (r : Report) (h : turbVal r = 40) :
    turbRule (turbVal r) =
      (4, ["Very high turbidity"], ["Pathogens likely; chlorination failure"]) ∧
    (score_and_infer r).issues_found.count "Very high turbidity" = 1 ∧
    (score_and_infer r).issues_found.count "High turbidity" = 0 ∧
    (score_and_infer r).issues_found.count "Turbidity above ideal" = 0 ∧
    (score_and_infer r).score =
      symptomScore (stextOf r) + (pHRule (pHVal r)).1 + (ecoliRule (ecoliVal r)).1 +
      (coliformRule (coliformsVal r)).1 + (hpcRule (hpcVal r)).1 +
      (arsenicRule (arsenicVal r)).1 + (fluorideRule (fluorideVal r)).1 +
      (nitrateRule (nitrateVal r)).1 + (leadRule (leadVal r)).1 + 4 := by
  have hturb : turbRule (turbVal r) =
      (4, ["Very high turbidity"], ["Pathogens likely; chlorination failure"]) := by
    rw [h]
    unfold turbRule
    rw [if_pos (by norm_num)]
  refine ⟨hturb, ?_, ?_, ?_, ?_⟩
  · show (rawIssues r).count "Very high turbidity" = 1
    unfold rawIssues
    simp only [List.count_append]
    rw [hturb,
      count_zero_of_sublist _ (pHRule_issues_sub _) (by decide),
      count_zero_of_sublist _ (ecoliRule_issues_sub _) (by decide),
      count_zero_of_sublist _ (coliformRule_issues_sub _) (by decide),
      count_zero_of_sublist _ (hpcRule_issues_sub _) (by decide),
      count_zero_of_sublist _ (arsenicRule_issues_sub _) (by decide),
      count_zero_of_sublist _ (fluorideRule_issues_sub _) (by decide),
      count_zero_of_sublist _ (nitrateRule_issues_sub _) (by decide),
      count_zero_of_sublist _ (leadRule_issues_sub _) (by decide)]
    decide
  · show (rawIssues r).count "High turbidity" = 0
    unfold rawIssues
    simp only [List.count_append]
    rw [hturb,
      count_zero_of_sublist _ (pHRule_issues_sub _) (by decide),
      count_zero_of_sublist _ (ecoliRule_issues_sub _) (by decide),
      count_zero_of_sublist _ (coliformRule_issues_sub _) (by decide),
      count_zero_of_sublist _ (hpcRule_issues_sub _) (by decide),
      count_zero_of_sublist _ (arsenicRule_issues_sub _) (by decide),
      count_zero_of_sublist _ (fluorideRule_issues_sub _) (by decide),
      count_zero_of_sublist _ (nitrateRule_issues_sub _) (by decide),
      count_zero_of_sublist _ (leadRule_issues_sub _) (by decide)]
    decide
  · show (rawIssues r).count "Turbidity above ideal" = 0
    unfold rawIssues
    simp only [List.count_append]
    rw [hturb,
      count_zero_of_sublist _ (pHRule_issues_sub _) (by decide),
      count_zero_of_sublist _ (ecoliRule_issues_sub _) (by decide),
      count_zero_of_sublist _ (coliformRule_issues_sub _) (by decide),
      count_zero_of_sublist _ (hpcRule_issues_sub _) (by decide),
      count_zero_of_sublist _ (arsenicRule_issues_sub _) (by decide),
      count_zero_of_sublist _ (fluorideRule_issues_sub _) (by decide),
      count_zero_of_sublist _ (nitrateRule_issues_sub _) (by decide),
      count_zero_of_sublist _ (leadRule_issues_sub _) (by decide)]
    decide
  · show rawScore r = _
    unfold rawScore
    rw [hturb]
    show symptomScore (stextOf r) + (pHRule (pHVal r)).1 + 4 + _ + _ + _ + _ + _ + _ + _ = _
    omega

/-- Witness for C5 at an explicit turbidity-40 report. -/
theorem C5_witness :
    turbVal { turbidity := some 40 } = 40 ∧
    (score_and_infer { turbidity := some 40 }).issues_found.count
      "Very high turbidity" = 1 :=
  ⟨rfl, (C5_turbidity_40_only_very_high { turbidity := some 40 } rfl).2.1⟩

/-! ### C8: the diarrhea coupling rule -/

theorem mem_ensure_self (d : String) (l : List String) : d ∈ ensure d l := by
  unfold ensure
  split
  · assumption
  · simp

theorem mem_ensure_of_mem (x d : String) (l : List String) (h : x ∈ l) :
    x ∈ ensure d l := by
  unfold ensure
  split
  · exact h
  · exact List.mem_append_left _ h

/-- The coupling rules only append: they keep every disease already there. -/
theorem mem_withCoupling_of_mem (r : Report) (ds : List String) (x : String)
    (h : x ∈ ds) : x ∈ withCoupling r ds := by
  simp only [withCoupling]
  split_ifs <;>
    repeat
      first
      | exact h
      | apply mem_ensure_of_mem

/-- When the diarrhea coupling condition holds, Cholera, Typhoid and
Gastroenteritis are all present afterwards. -/
theorem coupling_adds_cholera_typhoid_gastro (r : Report) (ds : List String)
    (h1 : containsSub (stextOf r) "diarrhea" = true ∧
      (0 < ecoliVal r ∨ 0 < coliformsVal r ∨ turbidity_max < turbVal r)) :
    "Cholera" ∈ withCoupling r ds ∧ "Typhoid" ∈ withCoupling r ds ∧
    "Gastroenteritis" ∈ withCoupling r ds := by
  simp only [withCoupling]
  rw [if_pos h1]
  split
  · exact ⟨mem_ensure_of_mem _ _ _
        (mem_ensure_of_mem _ _ _ (mem_ensure_of_mem _ _ _ (mem_ensure_self _ _))),
      mem_ensure_of_mem _ _ _ (mem_ensure_of_mem _ _ _ (mem_ensure_self _ _)),
      mem_ensure_of_mem _ _ _ (mem_ensure_self _ _)⟩
  · exact ⟨mem_ensure_of_mem _ _ _ (mem_ensure_of_mem _ _ _ (mem_ensure_self _ _)),
      mem_ensure_of_mem _ _ _ (mem_ensure_self _ _),
      mem_ensure_self _ _⟩

/-- **C8**: whenever the symptom text contains "diarrhea" and E. coli is
present, `likely_diseases` contains Cholera, Typhoid, Gastroenteritis and
Diarrhea exactly once each, and the coupling rules add no score. -/
theorem C8_diarrhea_ecoli_coupling (r : Report)
    (hd : containsSub (stextOf r) "diarrhea" = true)
    (he : 0 < ecoliVal r) :
    (score_and_infer r).likely_diseases.count "Cholera" = 1 ∧
    (score_and_infer r).likely_diseases.count "Typhoid" = 1 ∧
    (score_and_infer r).likely_diseases.count "Gastroenteritis" = 1 ∧
    (score_and_infer r).likely_diseases.count "Diarrhea" = 1 ∧
    (score_and_infer r).score = rawScore r := by
  have heq : (score_and_infer r).likely_diseases =
      keepFirstSpec (withCoupling r (baseDiseases r)) := dedupKeepFirst_eq _
  have hcount : ∀ x, x ∈ withCoupling r (baseDiseases r) →
      (score_and_infer r).likely_diseases.count x = 1 := by
    intro x hx
    rw [heq]
    exact List.count_eq_one_of_mem (nodup_keepFirstSpec _)
      (mem_keepFirstSpec_of_mem _ _ hx)
  have h1 : containsSub (stextOf r) "diarrhea" = true ∧
      (0 < ecoliVal r ∨ 0 < coliformsVal r ∨ turbidity_max < turbVal r) :=
    ⟨hd, Or.inl he⟩
  obtain ⟨hC, hT, hG⟩ := coupling_adds_cholera_typhoid_gastro r (baseDiseases r) h1
  have hec : ecoliRule (ecoliVal r) =
      (5, ["E. coli present"], ["Diarrhea", "Cholera", "Typhoid"]) := by
    unfold ecoliRule
    rw [if_pos he]
  have hD : "Diarrhea" ∈ baseDiseases r := by
    unfold baseDiseases
    rw [hec]
    simp
  exact ⟨hcount _ hC, hcount _ hT, hcount _ hG,
    hcount _ (mem_withCoupling_of_mem r _ _ hD), rfl⟩

/-- The report from the spec's coupling example. -/
def c8Report : Report :=
  { symptoms := some "severe diarrhea and fever", bacteria_count := some 5 }

/-- Witness for C8 at the report from the spec's example. -/
theorem C8_witness :
    containsSub (stextOf c8Report) "diarrhea" = true ∧
    (score_and_infer c8Report).likely_diseases.count "Gastroenteritis" = 1 :=
  ⟨rfl, (C8_diarrhea_ecoli_coupling c8Report rfl (by decide)).2.2.1⟩

/-! ### C7: the score is monotone in the set of fired rule conditions -/

/-- The fifteen score-contributing rule conditions, in evaluation order
(the two scoring turbidity branches appear with their guards made
explicit; the ">1" turbidity branch scores 0 and is omitted). -/
def condList (r : Report) : List Bool :=
  [containsSub (stextOf r) "fever",
   containsSub (stextOf r) "diarrhea",
   containsSub (stextOf r) "vomit" || containsSub (stextOf r) "vomiting" ||
     containsSub (stextOf r) "nausea",
   containsSub (stextOf r) "jaundice",
   containsSub (stextOf r) "abdominal pain" || containsSub (stextOf r) "stomach pain",
   decide (pHVal r < pH_min ∨ pH_max < pHVal r),
   decide (30 < turbVal r),
   decide (¬(30 < turbVal r) ∧ turbidity_max < turbVal r),
   decide (0 < ecoliVal r),
   decide (0 < coliformsVal r),
   decide (hpc_max < hpcVal r),
   decide (arsenic_max < arsenicVal r),
   decide (fluoride_max < fluorideVal r),
   decide (nitrate_max < nitrateVal r),
   decide (lead_max < leadVal r)]

/-- The score deltas of the fifteen conditions, in the same order. -/
def ruleWeights : List ℕ := [2, 3, 2, 2, 1, 2, 4, 2, 5, 3, 2, 4, 2, 3, 4]

/-- Sum of the weights of the fired conditions. -/
def weightedSum : List Bool → List ℕ → ℕ
  | [], _ => 0
  | _ :: _, [] => 0
  | b :: bs, w :: ws => (if b then w else 0) + weightedSum bs ws

theorem turbRule_fst_split (t : ℚ) :
    (turbRule t).1 = (if decide (30 < t) then 4 else 0) +
      (if decide (¬(30 < t) ∧ turbidity_max < t) then 2 else 0) := by
  unfold turbRule
  by_cases h1 : 30 < t
  · simp [h1]
  · by_cases h2 : turbidity_max < t
    · simp [h1, h2]
    · simp [h1, h2]
      split <;> rfl

/-- The total score decomposes as the weighted sum of the fired conditions:
each rule contributes independently and additively. -/
theorem rawScore_decomp (r : Report) :
    rawScore r = weightedSum (condList r) ruleWeights := by
  have hpH : (pHRule (pHVal r)).1 =
      if decide (pHVal r < pH_min ∨ pH_max < pHVal r) then 2 else 0 := by
    unfold pHRule
    by_cases h : pHVal r < pH_min ∨ pH_max < pHVal r <;> simp [h]
  have hec : (ecoliRule (ecoliVal r)).1 = if decide (0 < ecoliVal r) then 5 else 0 := by
    unfold ecoliRule
    by_cases h : 0 < ecoliVal r <;> simp [h]
  have hco : (coliformRule (coliformsVal r)).1 =
      if decide (0 < coliformsVal r) then 3 else 0 := by
    unfold coliformRule
    by_cases h : 0 < coliformsVal r <;> simp [h]
  have hhp : (hpcRule (hpcVal r)).1 = if decide (hpc_max < hpcVal r) then 2 else 0 := by
    unfold hpcRule
    by_cases h : hpc_max < hpcVal r <;> simp [h]
  have har : (arsenicRule (arsenicVal r)).1 =
      if decide (arsenic_max < arsenicVal r) then 4 else 0 := by
    unfold arsenicRule
    by_cases h : arsenic_max < arsenicVal r <;> simp [h]
  have hfl : (fluorideRule (fluorideVal r)).1 =
      if decide (fluoride_max < fluorideVal r) then 2 else 0 := by
    unfold fluorideRule
    by_cases h : fluoride_max < fluorideVal r <;> simp [h]
  have hni : (nitrateRule (nitrateVal r)).1 =
      if decide (nitrate_max < nitrateVal r) then 3 else 0 := by
    unfold nitrateRule
    by_cases h : nitrate_max < nitrateVal r <;> simp [h]
  have hle : (leadRule (leadVal r)).1 = if decide (lead_max < leadVal r) then 4 else 0 := by
    unfold leadRule
    by_cases h : lead_max < leadVal r <;> simp [h]
  unfold rawScore symptomScore
  rw [hpH, turbRule_fst_split (turbVal r), hec, hco, hhp, har, hfl, hni, hle]
  simp only [condList, ruleWeights, weightedSum]
  omega

theorem weightedSum_mono : ∀ (bs1 bs2 : List Bool) (ws : List ℕ),
    bs1.length = bs2.length →
    (∀ i, bs1.getD i false = true → bs2.getD i false = true) →
    weightedSum bs1 ws ≤ weightedSum bs2 ws := by
  intro bs1
  induction bs1 with
  | nil =>
    intro bs2 ws _ _
    simp [weightedSum]
  | cons b1 t1 ih =>
    intro bs2 ws hlen h
    cases bs2 with
    | nil => simp at hlen
    | cons b2 t2 =>
      cases ws with
      | nil => simp [weightedSum]
      | cons w tws =>
        rw [weightedSum, weightedSum]
        have h0 := h 0
        simp only [List.getD_cons_zero] at h0
        have hhead : (if b1 then w else 0) ≤ (if b2 then w else 0) := by
          cases b1 with
          | false => simp
          | true => rw [h0 rfl]
        have htail := ih t2 tws (by simpa using hlen)
          (fun i => by
            have hi := h (i + 1)
            simpa only [List.getD_cons_succ] using hi)
        exact Nat.add_le_add hhead htail

/-- **C7**: if every rule condition fired by `r1` also fires in `r2`, the
score of `r2` is at least the score of `r1` — the score is monotonically
non-decreasing in the set of triggered conditions. -/
theorem C7_score_monotone (r1 r2 : Report)
    (h : ∀ i, i < 15 → (condList r1).getD i false = true →
      (condList r2).getD i false = true) :
    (score_and_infer r1).score ≤ (score_and_infer r2).score := by
  show rawScore r1 ≤ rawScore r2
  rw [rawScore_decomp r1, rawScore_decomp r2]
  refine weightedSum_mono _ _ _ rfl ?_
  intro i hb
  by_cases hi : i < 15
  · exact h i hi hb
  · exfalso
    rw [List.getD_eq_default _ _ (by simp [condList]; omega)] at hb
    exact Bool.false_ne_true hb

theorem getD_replicate_false : ∀ (n i : ℕ),
    (List.replicate n false).getD i false = false := by
  intro n
  induction n with
  | zero => intro i; simp
  | succ m ih =>
    intro i
    cases i with
    | zero => simp [List.replicate]
    | succ j => simp [List.replicate, ih j]

/-- The all-default report fires none of the fifteen conditions. -/
theorem condList_default : condList {} = List.replicate 15 false := by
  have e6 : decide (pHVal ({} : Report) < pH_min ∨ pH_max < pHVal ({} : Report)) = false :=
    decide_eq_false (by norm_num [pHVal, pH_min, pH_max])
  have e7 : decide (30 < turbVal ({} : Report)) = false :=
    decide_eq_false (by norm_num [turbVal])
  have e8 : decide (¬(30 < turbVal ({} : Report)) ∧
      turbidity_max < turbVal ({} : Report)) = false :=
    decide_eq_false (by norm_num [turbVal, turbidity_max])
  have e9 : decide (0 < ecoliVal ({} : Report)) = false :=
    decide_eq_false (by norm_num [ecoliVal])
  have e10 : decide (0 < coliformsVal ({} : Report)) = false :=
    decide_eq_false (by norm_num [coliformsVal])
  have e11 : decide (hpc_max < hpcVal ({} : Report)) = false :=
    decide_eq_false (by norm_num [hpcVal, hpc_max])
  have e12 : decide (arsenic_max < arsenicVal ({} : Report)) = false :=
    decide_eq_false (by norm_num [arsenicVal, arsenic_max])
  have e13 : decide (fluoride_max < fluorideVal ({} : Report)) = false :=
    decide_eq_false (by norm_num [fluorideVal, fluoride_max])
  have e14 : decide (nitrate_max < nitrateVal ({} : Report)) = false :=
    decide_eq_false (by norm_num [nitrateVal, nitrate_max])
  have e15 : decide (lead_max < leadVal ({} : Report)) = false :=
    decide_eq_false (by norm_num [leadVal, lead_max])
  unfold condList
  rw [e6, e7, e8, e9, e10, e11, e12, e13, e14, e15]
  rfl

/-- Witness for C7: the all-default report against the diarrhea/E. coli
report. -/
theorem C7_witness :
    (score_and_infer {}).score ≤ (score_and_infer c8Report).score := by
  refine C7_score_monotone {} c8Report ?_
  intro i _ hb
  rw [condList_default, getD_replicate_false] at hb
  exact absurd hb Bool.false_ne_true

/-! ### C9: `most_common(5)` — cap, descending order, stable ties -/

theorem mem_le_maxCount : ∀ (c : List (String × ℕ)) (p : String × ℕ),
    p ∈ c → p.2 ≤ maxCount c := by
  intro c
  induction c with
  | nil => intro p hp; simp at hp
  | cons q t ih =>
    intro p hp
    have hm : maxCount (q :: t) = max q.2 (maxCount t) := rfl
    rcases List.mem_cons.mp hp with h1 | h2
    · rw [hm, h1]
      exact le_max_left _ _
    · exact le_trans (ih p h2) (hm ▸ le_max_right _ _)

/-- The stable sort is sorted by descending stored count. -/
theorem sortDescStable_sorted (c : List (String × ℕ)) :
    List.Pairwise (fun p q => q.2 ≤ p.2) (sortDescStable c) := by
  unfold sortDescStable
  rw [List.pairwise_flatMap]
  constructor
  · intro v _
    refine List.pairwise_of_forall_mem_list ?_
    intro a ha b hb
    have ha2 := (List.mem_filter.mp ha).2
    have hb2 := (List.mem_filter.mp hb).2
    simp only [decide_eq_true_eq] at ha2 hb2
    rw [ha2, hb2]
  · rw [List.pairwise_reverse]
    refine (List.pairwise_lt_range _).imp ?_
    intro a b hab x hx y hy
    have hx2 := (List.mem_filter.mp hx).2
    have hy2 := (List.mem_filter.mp hy).2
    simp only [decide_eq_true_eq] at hx2 hy2
    rw [hx2, hy2]
    exact le_of_lt hab

theorem flatMap_filter_single (c : List (String × ℕ)) (v : ℕ) :
    ∀ (vs : List ℕ), vs.Nodup →
      (vs.flatMap (fun u => c.filter (fun p => p.2 = u))).filter
          (fun p => p.2 = v) =
        if v ∈ vs then c.filter (fun p => p.2 = v) else [] := by
  intro vs
  induction vs with
  | nil => simp
  | cons u t ih =>
    intro hnd
    rw [List.flatMap_cons, List.filter_append, ih (List.nodup_cons.mp hnd).2,
      List.filter_filter]
    by_cases huv : u = v
    · subst huv
      have hut : u ∉ t := (List.nodup_cons.mp hnd).1
      rw [if_neg hut, if_pos (List.mem_cons_self u t), List.append_nil]
      refine List.filter_congr ?_
      intro p _
      simp [Bool.and_self]
    · have hzero : List.filter (fun a => decide (a.2 = v) && decide (a.2 = u)) c = [] := by
        refine List.filter_eq_nil_iff.mpr ?_
        intro p _
        simp only [Bool.and_eq_true, decide_eq_true_eq, not_and]
        intro h1 h2
        exact huv (h2 ▸ h1 ▸ rfl)
      rw [hzero, List.nil_append]
      by_cases hvt : v ∈ t
      · rw [if_pos hvt, if_pos (List.mem_cons_of_mem _ hvt)]
      · rw [if_neg hvt, if_neg (by
          intro hmem
          rcases List.mem_cons.mp hmem with h1 | h2
          · exact huv h1.symm
          · exact hvt h2)]

/-- Stability: entries with any given count appear in the sorted list in
exactly their original (first-encountered) order. -/
theorem sortDescStable_filter (c : List (String × ℕ)) (v : ℕ) :
    (sortDescStable c).filter (fun p => p.2 = v) =
      c.filter (fun p => p.2 = v) := by
  unfold sortDescStable
  rw [flatMap_filter_single c v _
    (by rw [List.nodup_reverse]; exact List.nodup_range _)]
  by_cases hv : v ≤ maxCount c
  · rw [if_pos (by rw [List.mem_reverse, List.mem_range]; omega)]
  · rw [if_neg (by rw [List.mem_reverse, List.mem_range]; omega)]
    symm
    refine List.filter_eq_nil_iff.mpr ?_
    intro p hp
    simp only [decide_eq_true_eq]
    intro h2
    exact hv (h2 ▸ mem_le_maxCount c p hp)

theorem mostCommonKeys_length_le (n : ℕ) (c : List (String × ℕ)) :
    (mostCommonKeys n c).length ≤ n := by
  unfold mostCommonKeys
  rw [List.length_map, List.length_take]
  exact min_le_left _ _

/-- `counter[k]` (0 when absent): the stored count of key `k`. -/
def countIn : List (String × ℕ) → String → ℕ
  | [], _ => 0
  | p :: t, k => if p.1 = k then p.2 else countIn t k

theorem countIn_eq_zero_of_not_any : ∀ (c : List (String × ℕ)) (k : String),
    c.any (fun p => p.1 = k) = false → countIn c k = 0 := by
  intro c k
  induction c with
  | nil => intro _; rfl
  | cons p t ih =>
    intro h
    simp only [List.any_cons, Bool.or_eq_false_iff] at h
    rw [countIn, if_neg (by simpa using h.1)]
    exact ih h.2

theorem countIn_append : ∀ (c l2 : List (String × ℕ)) (k : String),
    countIn (c ++ l2) k =
      if c.any (fun p => p.1 = k) then countIn c k else countIn l2 k := by
  intro c l2 k
  induction c with
  | nil => simp [countIn]
  | cons p t ih =>
    rw [List.cons_append]
    by_cases hp : p.1 = k
    · have hL : countIn (p :: (t ++ l2)) k = p.2 := by rw [countIn, if_pos hp]
      have hR : countIn (p :: t) k = p.2 := by rw [countIn, if_pos hp]
      have hc : (p :: t).any (fun q => q.1 = k) = true := by simp [List.any_cons, hp]
      rw [hL, if_pos hc, hR]
    · have hL : countIn (p :: (t ++ l2)) k = countIn (t ++ l2) k := by
        rw [countIn, if_neg hp]
      have hR : countIn (p :: t) k = countIn t k := by rw [countIn, if_neg hp]
      have hc : (p :: t).any (fun q => q.1 = k) = t.any (fun q => q.1 = k) := by
        rw [List.any_cons, decide_eq_false hp, Bool.false_or]
      rw [hL, ih, hc, hR]

theorem countIn_map_inc_self (k : String) : ∀ (c : List (String × ℕ)),
    c.any (fun p => p.1 = k) = true →
    countIn (c.map (fun p => if p.1 = k then (p.1, p.2 + 1) else p)) k =
      countIn c k + 1 := by
  intro c
  induction c with
  | nil => intro h; simp at h
  | cons p t ih =>
    intro h
    by_cases hp : p.1 = k
    · simp [countIn, hp]
    · simp only [List.any_cons] at h
      rcases Bool.or_eq_true_iff.mp h with h1 | h2
      · exact absurd (by simpa using h1) hp
      · simp [countIn, hp, ih h2]

theorem countIn_map_inc_other (k k' : String) (hk : k' ≠ k) :
    ∀ (c : List (String × ℕ)),
    countIn (c.map (fun p => if p.1 = k then (p.1, p.2 + 1) else p)) k' =
      countIn c k' := by
  intro c
  have hk2 : ¬ k = k' := fun h => hk h.symm
  induction c with
  | nil => rfl
  | cons p t ih =>
    by_cases hp : p.1 = k
    · have hp' : ¬ p.1 = k' := fun h => hk (h ▸ hp ▸ rfl)
      simp [countIn, hp, hp', hk, hk2, ih]
    · by_cases hp' : p.1 = k'
      · simp [countIn, hp, hp', hk, hk2]
      · simp [countIn, hp, hp', hk, hk2, ih]

/-- `counter[k] += 1` increments the stored count of `k` and nothing else. -/
theorem countIn_cInc (c : List (String × ℕ)) (k k' : String) :
    countIn (cInc c k) k' = countIn c k' + (if k' = k then 1 else 0) := by
  unfold cInc
  cases hany : c.any (fun p => p.1 = k) with
  | true =>
    rw [if_pos rfl]
    by_cases hk : k' = k
    · subst hk
      rw [countIn_map_inc_self k' c hany, if_pos rfl]
    · rw [countIn_map_inc_other k k' hk c, if_neg hk]
      omega
  | false =>
    rw [if_neg (by simp), countIn_append]
    by_cases hk : k' = k
    · subst hk
      rw [if_neg (by simp [hany]), countIn_eq_zero_of_not_any c k' hany, if_pos rfl]
      simp [countIn]
    · rw [if_neg hk]
      cases hany' : c.any (fun p => p.1 = k') with
      | true =>
        rw [if_pos rfl]
        omega
      | false =>
        rw [if_neg (by simp), countIn_eq_zero_of_not_any c k' hany']
        simp [countIn, (show ¬ k = k' from fun h => hk h.symm)]

theorem countIn_foldl_cInc (k : String) : ∀ (l : List String) (c : List (String × ℕ)),
    countIn (l.foldl cInc c) k = countIn c k + l.count k := by
  intro l
  induction l with
  | nil => intro c; simp
  | cons a t ih =>
    intro c
    rw [List.foldl_cons, ih (cInc c a), countIn_cInc, List.count_cons]
    by_cases hk : k = a
    · subst hk
      rw [if_pos rfl, beq_self_eq_true, if_pos rfl]
      omega
    · rw [if_neg hk,
        (by simpa using (fun h => hk h.symm : ¬ a = k) : (a == k) = false)]
      simp only [Bool.false_eq_true, if_false]
      omega

/-- All issue strings emitted for one location, in report order. -/
def locIssuesSeq (reports : List Report) (loc : String) : List String :=
  (reports.filter (fun r => locOf r = loc)).flatMap
    (fun r => (score_and_infer r).issues_found)

/-- All disease strings emitted for one location, in report order. -/
def locDiseasesSeq (reports : List Report) (loc : String) : List String :=
  (reports.filter (fun r => locOf r = loc)).flatMap
    (fun r => (score_and_infer r).likely_diseases)

theorem countIn_loc_fold (emit : Report → List String) (loc k : String) :
    ∀ (reports : List Report) (c : List (String × ℕ)),
      countIn (reports.foldl
          (fun c' r => if locOf r = loc then (emit r).foldl cInc c' else c') c) k =
        countIn c k +
          ((reports.filter (fun r => locOf r = loc)).flatMap emit).count k := by
  intro reports
  induction reports with
  | nil =>
    intro c
    rw [List.foldl_nil, List.filter_nil, List.flatMap_nil, List.count_nil]
    omega
  | cons r t ih =>
    intro c
    rw [List.foldl_cons, List.filter_cons]
    by_cases hloc : locOf r = loc
    · rw [if_pos hloc, if_pos (by simp [hloc]), ih ((emit r).foldl cInc c),
        countIn_foldl_cInc, List.flatMap_cons, List.count_append]
      omega
    · rw [if_neg hloc, if_neg (by simp [hloc]), ih c]

theorem map_fst_cInc (c : List (String × ℕ)) (k : String) :
    (cInc c k).map Prod.fst = dedupStep (c.map Prod.fst) k := by
  unfold cInc dedupStep
  have hmem : c.any (fun p => p.1 = k) = true ↔ k ∈ c.map Prod.fst := by
    rw [List.any_eq_true]
    constructor
    · rintro ⟨p, hp, hpk⟩
      exact List.mem_map.mpr ⟨p, hp, by simpa using hpk⟩
    · intro hm
      rcases List.mem_map.mp hm with ⟨p, hp, hpk⟩
      exact ⟨p, hp, by simpa using hpk⟩
  cases hany : c.any (fun p => p.1 = k) with
  | true =>
    rw [if_pos rfl, if_pos (hmem.mp hany), List.map_map]
    refine List.map_congr_left ?_
    intro p _
    by_cases hp : p.1 = k <;> simp [hp]
  | false =>
    rw [if_neg (by simp), if_neg (fun hm => by simp [hmem.mpr hm] at hany),
      List.map_append]
    rfl

theorem map_fst_foldl_cInc : ∀ (l : List String) (c : List (String × ℕ)),
    (l.foldl cInc c).map Prod.fst = l.foldl dedupStep (c.map Prod.fst) := by
  intro l
  induction l with
  | nil => intro c; rfl
  | cons a t ih =>
    intro c
    rw [List.foldl_cons, List.foldl_cons, ih (cInc c a), map_fst_cInc]

theorem keys_loc_fold (emit : Report → List String) (loc : String) :
    ∀ (reports : List Report) (c : List (String × ℕ)),
      (reports.foldl
          (fun c' r => if locOf r = loc then (emit r).foldl cInc c' else c') c).map
        Prod.fst =
        ((reports.filter (fun r => locOf r = loc)).flatMap emit).foldl dedupStep
          (c.map Prod.fst) := by
  intro reports
  induction reports with
  | nil => intro c; simp
  | cons r t ih =>
    intro c
    rw [List.foldl_cons, List.filter_cons]
    by_cases hloc : locOf r = loc
    · rw [if_pos hloc, if_pos (by simp [hloc]), ih ((emit r).foldl cInc c),
        map_fst_foldl_cInc, List.flatMap_cons, List.foldl_append]
    · rw [if_neg hloc, if_neg (by simp [hloc]), ih c]

/-- The stored counts of the issue counter are exactly the occurrence
frequencies of the issues emitted for that location. -/
theorem countIn_issueCounterOf (reports : List Report) (loc k : String) :
    countIn (issueCounterOf reports loc) k = (locIssuesSeq reports loc).count k := by
  have h := countIn_loc_fold (fun r => (score_and_infer r).issues_found) loc k reports []
  unfold issueCounterOf locIssuesSeq
  rw [h]
  simp [countIn]

/-- The stored counts of the disease counter are exactly the occurrence
frequencies of the diseases emitted for that location. -/
theorem countIn_diseaseCounterOf (reports : List Report) (loc k : String) :
    countIn (diseaseCounterOf reports loc) k =
      (locDiseasesSeq reports loc).count k := by
  have h := countIn_loc_fold (fun r => (score_and_infer r).likely_diseases) loc k reports []
  unfold diseaseCounterOf locDiseasesSeq
  rw [h]
  simp [countIn]

/-- The issue counter's keys are in first-encountered (insertion) order. -/
theorem keys_issueCounterOf (reports : List Report) (loc : String) :
    (issueCounterOf reports loc).map Prod.fst =
      keepFirstSpec (locIssuesSeq reports loc) := by
  have h := keys_loc_fold (fun r => (score_and_infer r).issues_found) loc reports []
  unfold issueCounterOf locIssuesSeq
  rw [h]
  exact dedupKeepFirst_eq _

/-- The disease counter's keys are in first-encountered (insertion) order. -/
theorem keys_diseaseCounterOf (reports : List Report) (loc : String) :
    (diseaseCounterOf reports loc).map Prod.fst =
      keepFirstSpec (locDiseasesSeq reports loc) := by
  have h := keys_loc_fold (fun r => (score_and_infer r).likely_diseases) loc reports []
  unfold diseaseCounterOf locDiseasesSeq
  rw [h]
  exact dedupKeepFirst_eq _

/-- **C9**: every location summary's `top_issues` and `likely_diseases_top`
have at most 5 entries even when more distinct values occur; they are the
key projections of the first five entries of the counter sorted by
descending occurrence frequency, that order is descending in the stored
counts, ties keep the counter's first-encountered order, the stored counts
are exactly the occurrence frequencies, and the counter's key order is the
first-occurrence order of the emitted values. -/
theorem C9_top5_cap_descending_stable (reports : List Report) (loc : String)
    (s : LocationSummary)
    (h : (aggregate_location_patterns reports).2 loc = some s) :
    s.top_issues.length ≤ 5 ∧ s.likely_diseases_top.length ≤ 5 ∧
    s.top_issues =
      ((sortDescStable (issueCounterOf reports loc)).take 5).map Prod.fst ∧
    s.likely_diseases_top =
      ((sortDescStable (diseaseCounterOf reports loc)).take 5).map Prod.fst ∧
    List.Pairwise (fun p q => q.2 ≤ p.2)
      ((sortDescStable (issueCounterOf reports loc)).take 5) ∧
    List.Pairwise (fun p q => q.2 ≤ p.2)
      ((sortDescStable (diseaseCounterOf reports loc)).take 5) ∧
    (∀ v, (sortDescStable (issueCounterOf reports loc)).filter (fun p => p.2 = v) =
      (issueCounterOf reports loc).filter (fun p => p.2 = v)) ∧
    (∀ v, (sortDescStable (diseaseCounterOf reports loc)).filter (fun p => p.2 = v) =
      (diseaseCounterOf reports loc).filter (fun p => p.2 = v)) ∧
    (∀ k, countIn (issueCounterOf reports loc) k =
      (locIssuesSeq reports loc).count k) ∧
    (∀ k, countIn (diseaseCounterOf reports loc) k =
      (locDiseasesSeq reports loc).count k) ∧
    (issueCounterOf reports loc).map Prod.fst =
      keepFirstSpec (locIssuesSeq reports loc) ∧
    (diseaseCounterOf reports loc).map Prod.fst =
      keepFirstSpec (locDiseasesSeq reports loc) := by
  simp only [aggregate_location_patterns] at h
  by_cases hmem : loc ∈ locationsOf reports
  · rw [if_pos hmem] at h
    injection h with h
    subst h
    refine ⟨mostCommonKeys_length_le 5 _, mostCommonKeys_length_le 5 _, rfl, rfl,
      ?_, ?_, ?_, ?_, ?_, ?_, ?_, ?_⟩
    · exact List.Pairwise.sublist (List.take_sublist _ _) (sortDescStable_sorted _)
    · exact List.Pairwise.sublist (List.take_sublist _ _) (sortDescStable_sorted _)
    · intro v
      exact sortDescStable_filter _ v
    · intro v
      exact sortDescStable_filter _ v
    · intro k
      exact countIn_issueCounterOf reports loc k
    · intro k
      exact countIn_diseaseCounterOf reports loc k
    · exact keys_issueCounterOf reports loc
    · exact keys_diseaseCounterOf reports loc
  · rw [if_neg hmem] at h
    cases h

/-- Witness for C9 at the empty report list ("Unknown" bucket). -/
theorem C9_witness :
    (aggregate_location_patterns []).2 "Unknown" = some ⟨[], [], [], []⟩ ∧
    (⟨[], [], [], []⟩ : LocationSummary).top_issues.length ≤ 5 :=
  ⟨rfl, (C9_top5_cap_descending_stable [] "Unknown" ⟨[], [], [], []⟩ rfl).1⟩

end MyAnalysis
